import Mathlib

/-!
Verification of the terraform-llm benchmark harness evaluation pipeline.

This development is a shallow embedding of the evaluation pipeline and scoring
engine of the repository:

* `src/terraform_llm/agent/results.py` — `StageStatus`, `StageResult`,
  `STAGE_WEIGHTS`, `InstanceResult.compute_total_score`;
* `src/terraform_llm/agent/evaluator.py` — `evaluate_instance`, `score_plan`,
  `_skip_remaining`, `_run_cleanup_if_needed`;
* `src/terraform_llm/agent/environment.py` — `run_command`, `terraform_init`,
  `terraform_validate`, `terraform_plan`;
* `src/terraform_llm/agent/agent.py` — `run_instance`.

Python floats are modelled as exact rationals (`ℚ`); Python dicts (which
preserve insertion order) are modelled as association lists.  External effects
(subprocess execution, JSON parsing of tool output, existence of `cleanup.sh`)
are modelled as oracle inputs: a `ProcOutcome` for one subprocess call, an
`Option` of the parsed JSON shape for one `json.loads` call, and a
`StageOutcome` record per environment method for the pipeline level (each
environment method of `environment.py` always fixes the `stage` name of the
`StageResult` it builds; everything else about the returned record is free).
-/

namespace TerraformLLM

/-- `StageStatus` from `results.py`: `PASSED | FAILED | SKIPPED | ERROR`. -/
inductive StageStatus where
  | PASSED
  | FAILED
  | SKIPPED
  | ERROR
  deriving DecidableEq, Repr

/-- The `details` dict of a `StageResult`. In the source it is an open
`Dict[str, Any]`; the pipeline only ever stores one of these shapes
(`environment.py`), and `evaluate_instance` only reads the
`"planned_resources"` key. -/
inductive Details where
  | empty
  | warningCount (n : Nat)
  | diagnostics (ds : List String)
  | plannedResources (m : List (String × Nat))
  deriving DecidableEq, Repr

/-- `plan_result.details.get("planned_resources", {})` (`evaluator.py` line 108):
returns the stored map when present, `{}` otherwise. -/
def getPlannedResources : Details → List (String × Nat)
  | Details.plannedResources m => m
  | _ => []

/-- `StageResult` dataclass from `results.py` (defaults as in the source). -/
structure StageResult where
  stage : String
  status : StageStatus
  score : ℚ
  message : String := ""
  duration_seconds : ℚ := 0
  raw_output : String := ""
  details : Details := Details.empty
  deriving DecidableEq, Repr

/-- `STAGE_WEIGHTS` dict from `results.py` together with the `.get(stage, 0.1)`
default used by `compute_total_score`. -/
def STAGE_WEIGHTS (stage : String) : ℚ :=
  if stage = "init" then 1/10
  else if stage = "validate" then 1/5
  else if stage = "plan" then 2/5
  else if stage = "apply" then 1/5
  else if stage = "validation_script" then 1/10
  else 1/10

/-- `InstanceResult._UNSCORED_STAGES` from `results.py`. -/
def UNSCORED_STAGES : List String := ["setup_script", "cleanup_script", "destroy"]

/-- One step of the accumulation loop of `InstanceResult.compute_total_score`
(`results.py` lines 70-77): skip `SKIPPED` stages and unscored stage names,
otherwise accumulate `score * weight` and `weight`. -/
def scoreStep (a : ℚ × ℚ) (s : StageResult) : ℚ × ℚ :=
  if s.status = StageStatus.SKIPPED then a
  else if s.stage ∈ UNSCORED_STAGES then a
  else (a.1 + s.score * STAGE_WEIGHTS s.stage, a.2 + STAGE_WEIGHTS s.stage)

/-- `InstanceResult.compute_total_score` from `results.py`:
`weighted_sum / total_weight if total_weight > 0 else 0.0`. -/
def computeTotalScore (stages : List StageResult) : ℚ :=
  if (stages.foldl scoreStep (0, 0)).2 > 0 then
    (stages.foldl scoreStep (0, 0)).1 / (stages.foldl scoreStep (0, 0)).2
  else 0

/-- Modelled from the spec's words (§4.1), as a refinement target for
`computeTotalScore`: filter to the stages with `status != Skipped` whose name is
not in the unscored set, sum `weight(stage) * score` into a numerator and
`weight(stage)` into a denominator, and return `numerator/denominator`, or
`0.0` if the denominator is `0`. -/
def isScored (s : StageResult) : Bool :=
  decide (s.status ≠ StageStatus.SKIPPED) && decide (s.stage ∉ UNSCORED_STAGES)

/-- Numerator of the spec's weighted average. -/
def scoredNum (stages : List StageResult) : ℚ :=
  ((stages.filter isScored).map (fun s => STAGE_WEIGHTS s.stage * s.score)).sum

/-- Denominator of the spec's weighted average. -/
def scoredDen (stages : List StageResult) : ℚ :=
  ((stages.filter isScored).map (fun s => STAGE_WEIGHTS s.stage)).sum

/-- The spec's §4.1 total-score algorithm, written from the spec's words. -/
def specTotalScore (stages : List StageResult) : ℚ :=
  if scoredDen stages = 0 then 0 else scoredNum stages / scoredDen stages

/-- `InstanceResult` dataclass from `results.py` (defaults as in the source;
`tool_calls` entries are opaque, a string stands for one recorded call). -/
structure InstanceResult where
  instance_id : String
  model : String := ""
  stages : List StageResult := []
  generated_files : List (String × String) := []
  total_score : ℚ := 0
  error : Option String := none
  tool_calls : List String := []
  prompt : Option String := none
  deriving DecidableEq, Repr

/-- `BenchmarkInstance` as consumed by `evaluate_instance` / `run_instance`:
`instance_id`, `expected_resources`, `validation_script`, `setup_script`,
`region`, `provider`, `problem_statement`, `hints`.  (`datasets/schema.py`'s
dataclass omits `setup_script`; the evaluator nevertheless reads that
attribute, and the spec's §3 BenchmarkInstance declares it as an optional
path, so it is modelled here as an optional field.) -/
structure BenchmarkInstance where
  instance_id : String
  problem_statement : String := ""
  provider : String := "aws"
  region : String := "us-east-1"
  expected_resources : List (String × Nat) := []
  validation_script : Option String := none
  setup_script : Option String := none
  hints : List String := []
  deriving DecidableEq, Repr

/-- Python truthiness of an optional string (`if instance.setup_script:`):
`None` and `""` are falsy. -/
def truthy : Option String → Bool
  | none => false
  | some s => !s.isEmpty

/-- `EvalConfig` dataclass from `evaluator.py` (defaults as in the source). -/
structure EvalConfig where
  run_apply : Bool := false
  run_destroy : Bool := true
  run_validation : Bool := false
  init_timeout : Nat := 120
  plan_timeout : Nat := 300
  apply_timeout : Nat := 600
  use_docker : Bool := false
  deriving DecidableEq, Repr

/-! ### The resource-count scorer (`score_plan`, `evaluator.py` lines 184-233) -/

/-- `planned_resources.get(rtype, 0)`. -/
def lookup0 (m : List (String × Nat)) (k : String) : Nat :=
  (m.lookup k).getD 0

/-- Per-type symmetric ratio `min(planned, expected) / max(planned, expected)`. -/
def typeRatio (planned expected : Nat) : ℚ :=
  ((min planned expected : Nat) : ℚ) / ((max planned expected : Nat) : ℚ)

/-- The `type_scores` list of `score_plan`: one ratio per expected type with a
nonzero required count, in insertion order (`for rtype, expected in
expected_resources.items(): if expected == 0: continue ...`). -/
def typeScores (planned expected : List (String × Nat)) : List ℚ :=
  (expected.filter (fun p => decide (p.2 ≠ 0))).map
    (fun p => typeRatio (lookup0 planned p.1) p.2)

/-- The `messages` list of `score_plan`: one `"{type}: expected {e}, got {p}"`
entry per mismatching expected type with nonzero required count. -/
def mismatchMessages (planned expected : List (String × Nat)) : List String :=
  (expected.filter (fun p => decide (p.2 ≠ 0))).filterMap
    (fun p =>
      if lookup0 planned p.1 ≠ p.2 then
        some (p.1 ++ ": expected " ++ toString p.2 ++ ", got " ++
          toString (lookup0 planned p.1))
      else none)

/-- `set(planned_resources.keys()) - set(expected_resources.keys())`: the
distinct resource types planned but absent from the expected map. -/
def unexpectedTypes (planned expected : List (String × Nat)) : List String :=
  ((planned.map Prod.fst).dedup).filter (fun k => (expected.lookup k).isNone)

/-- `sum(type_scores) / len(type_scores) if type_scores else 0.0`. -/
def avgTypeScore (planned expected : List (String × Nat)) : ℚ :=
  if (typeScores planned expected).isEmpty then 0
  else (typeScores planned expected).sum / ((typeScores planned expected).length : ℚ)

/-- `min(0.1 * len(unexpected), 0.3)`. -/
def unexpectedPenalty (planned expected : List (String × Nat)) : ℚ :=
  min (((unexpectedTypes planned expected).length : ℚ) * (1/10)) (3/10)

/-- Insertion of a string into a sorted list (for Python's `sorted`). -/
def insertStr (s : String) : List String → List String
  | [] => [s]
  | t :: ts => if s ≤ t then s :: t :: ts else t :: insertStr s ts

/-- Python's `sorted` on a list of strings (insertion sort; ordering is the
lexicographic order on code points, as in Python). -/
def sortStrings : List String → List String
  | [] => []
  | s :: ss => insertStr s (sortStrings ss)

/-- The message built by `score_plan` in the non-degenerate case
(`evaluator.py` lines 226-231). -/
def scorePlanMessage (planned expected : List (String × Nat)) : String :=
  if (mismatchMessages planned expected).isEmpty && (unexpectedTypes planned expected).isEmpty
  then "All resources match expected counts"
  else
    String.intercalate "; "
      (if (unexpectedTypes planned expected).isEmpty then mismatchMessages planned expected
       else mismatchMessages planned expected ++
         ["Unexpected types: " ++
           String.intercalate ", " (sortStrings (unexpectedTypes planned expected))])

/-- `score_plan(planned_resources, expected_resources)` from `evaluator.py`:
returns `(score, message)`. -/
def scorePlan (planned expected : List (String × Nat)) : ℚ × String :=
  if expected.isEmpty then
    if planned.isEmpty then (1, "No expected resources to check")
    else (1/2, "No expectations defined")
  else
    (max 0 (avgTypeScore planned expected - unexpectedPenalty planned expected),
     scorePlanMessage planned expected)

/-! ### The environment methods (`environment.py`) -/

/-- `CommandResult` dataclass from `environment.py`. -/
structure CommandResult where
  returncode : Int
  stdout : String
  stderr : String
  duration_seconds : ℚ
  deriving DecidableEq, Repr

/-- Outcome of one `subprocess.run` call, as an oracle: normal completion,
`subprocess.TimeoutExpired`, or `FileNotFoundError` (missing executable). -/
inductive ProcOutcome where
  | completed (returncode : Int) (stdout stderr : String) (duration : ℚ)
  | timedOut (timeout : Nat) (duration : ℚ)
  | notFound (program : String) (duration : ℚ)
  deriving DecidableEq, Repr

/-- `TerraformEnvironment.run_command` (`environment.py` lines 77-110): a
timeout and a missing executable are both converted to a `CommandResult` with
`returncode = -1` and a synthetic `stderr` message. -/
def runCommand : ProcOutcome → CommandResult
  | ProcOutcome.completed rc out err d => ⟨rc, out, err, d⟩
  | ProcOutcome.timedOut t d => ⟨-1, "", "Command timed out after " ++ toString t ++ "s", d⟩
  | ProcOutcome.notFound prog d => ⟨-1, "", "Command not found: " ++ prog, d⟩

/-- The combined failure output used by `terraform_init` / `terraform_plan` /
`terraform_apply` / `terraform_destroy`: `stdout if stdout else stderr`, and
both joined with a newline if both are nonempty. -/
def errorOutput (r : CommandResult) : String :=
  if !r.stdout.isEmpty && !r.stderr.isEmpty then r.stdout ++ "\n" ++ r.stderr
  else if !r.stdout.isEmpty then r.stdout
  else r.stderr

/-- `TerraformEnvironment.terraform_init` (`environment.py` lines 135-162),
as a function of the `CommandResult` of `terraform init -input=false`. -/
def terraformInit (r : CommandResult) : StageResult :=
  if r.returncode = 0 then
    { stage := "init", status := StageStatus.PASSED, score := 1,
      message := "terraform init succeeded",
      duration_seconds := r.duration_seconds, raw_output := r.stdout }
  else
    { stage := "init", status := StageStatus.FAILED, score := 0,
      message := "terraform init failed",
      duration_seconds := r.duration_seconds, raw_output := errorOutput r }

/-- The JSON object `terraform validate -json` is expected to print, after the
defaulted `.get` reads of `terraform_validate` (`valid`, `diagnostics`,
`error_count`, `warning_count`); diagnostics entries are opaque. -/
structure ValidateJson where
  valid : Bool
  diagnostics : List String := []
  error_count : Nat := 0
  warning_count : Nat := 0
  deriving DecidableEq, Repr

/-- `TerraformEnvironment.terraform_validate` (`environment.py` lines 164-204),
as a function of the `CommandResult` of `terraform validate -json` and of the
outcome of `json.loads(result.stdout)` (`none` = `JSONDecodeError`). -/
def terraformValidate (r : CommandResult) (parsed : Option ValidateJson) : StageResult :=
  match parsed with
  | none =>
      { stage := "validate", status := StageStatus.ERROR, score := 0,
        message := "Failed to parse validate output",
        duration_seconds := r.duration_seconds, raw_output := r.stdout ++ r.stderr }
  | some j =>
      if j.valid then
        { stage := "validate", status := StageStatus.PASSED, score := 1,
          message := "Validation passed",
          duration_seconds := r.duration_seconds, raw_output := r.stdout,
          details := Details.warningCount j.warning_count }
      else
        { stage := "validate", status := StageStatus.FAILED, score := 0,
          message := "Validation failed with " ++ toString j.error_count ++ " error(s)",
          duration_seconds := r.duration_seconds, raw_output := r.stdout,
          details := Details.diagnostics j.diagnostics }

/-- One entry of the `resource_changes` array of `terraform show -json`. -/
structure ResourceChange where
  mode : String
  actions : List String
  rtype : String
  deriving DecidableEq, Repr

/-- `resource_counts[t] = resource_counts.get(t, 0) + 1` on an
insertion-ordered dict. -/
def bumpCount (m : List (String × Nat)) (k : String) : List (String × Nat) :=
  if (m.lookup k).isSome then
    m.map (fun p => if p.1 = k then (p.1, p.2 + 1) else p)
  else m ++ [(k, 1)]

/-- The counting loop of `terraform_plan` (`environment.py` lines 256-264):
count `mode == "managed"` entries whose action set contains `"create"`,
grouped by resource type. -/
def countCreates (changes : List ResourceChange) : List (String × Nat) :=
  changes.foldl
    (fun acc c =>
      if c.mode ≠ "managed" then acc
      else if "create" ∉ c.actions then acc
      else bumpCount acc c.rtype) []

/-- `TerraformEnvironment.terraform_plan` (`environment.py` lines 206-276), as
a function of the `CommandResult`s of `terraform plan -out=tfplan` and
`terraform show -json tfplan`, the outcome of `json.loads(show.stdout)`, and
the elapsed wall-clock time (an oracle value). -/
def terraformPlanStage (planCmd showCmd : CommandResult)
    (parsed : Option (List ResourceChange)) (elapsed : ℚ) : StageResult :=
  if planCmd.returncode ≠ 0 then
    { stage := "plan", status := StageStatus.FAILED, score := 0,
      message := "terraform plan failed",
      duration_seconds := elapsed, raw_output := errorOutput planCmd }
  else if showCmd.returncode ≠ 0 then
    { stage := "plan", status := StageStatus.ERROR, score := 0,
      message := "terraform show -json failed",
      duration_seconds := elapsed, raw_output := showCmd.stderr }
  else
    match parsed with
    | none =>
        { stage := "plan", status := StageStatus.ERROR, score := 0,
          message := "Failed to parse plan JSON",
          duration_seconds := elapsed, raw_output := showCmd.stdout }
    | some changes =>
        { stage := "plan", status := StageStatus.PASSED, score := 1,
          message := "Plan succeeded with " ++
            toString ((countCreates changes).map Prod.snd).sum ++ " resource(s)",
          duration_seconds := elapsed, raw_output := planCmd.stdout,
          details := Details.plannedResources (countCreates changes) }

/-! ### The evaluation pipeline (`evaluate_instance`, `evaluator.py`) -/

/-- What an environment method returns, minus the stage name it always fixes
itself (every constructor of a `StageResult` inside a given method of
`environment.py` uses that method's literal stage name). -/
structure StageOutcome where
  status : StageStatus
  score : ℚ := 0
  message : String := ""
  duration_seconds : ℚ := 0
  raw_output : String := ""
  details : Details := Details.empty
  deriving DecidableEq, Repr

/-- Rebuild the `StageResult` an environment method returns from its fixed
stage name and the free outcome. -/
def mkStage (name : String) (o : StageOutcome) : StageResult :=
  { stage := name, status := o.status, score := o.score, message := o.message,
    duration_seconds := o.duration_seconds, raw_output := o.raw_output,
    details := o.details }

/-- Oracle for one instance evaluation: the outcome each environment call
would produce, plus whether `cleanup.sh` exists next to the setup script. -/
structure EnvBehavior where
  setupOutcome : StageOutcome
  initOutcome : StageOutcome
  validateOutcome : StageOutcome
  planOutcome : StageOutcome
  applyOutcome : StageOutcome
  validationOutcome : StageOutcome
  destroyOutcome : StageOutcome
  cleanupOutcome : StageOutcome
  cleanupShExists : Bool
  deriving DecidableEq, Repr

/-- The environment operations `evaluate_instance` can invoke, in the order of
invocation (the recorded call log). -/
inductive EnvCall where
  | setupScript
  | init
  | validate
  | plan
  | apply
  | validationScript
  | destroy
  | cleanupScript
  deriving DecidableEq, Repr

/-- One `SKIPPED` entry appended by `_skip_remaining` (`evaluator.py`
lines 236-244). -/
def skipResult (name : String) : StageResult :=
  { stage := name, status := StageStatus.SKIPPED, score := 0,
    message := "Skipped due to previous stage failure" }

/-- `_skip_remaining`: one `SKIPPED` entry per remaining stage name, in order. -/
def skipRemaining (names : List String) : List StageResult :=
  names.map skipResult

/-- The in-place rescoring of a passed plan stage (`evaluator.py` lines
106-113): overwrite `score` and `message` with the scorer's output, and set
`status` to `PASSED` when the score is below `1.0`. -/
def applyPlanScoring (sr : StageResult) (expected : List (String × Nat)) : StageResult :=
  { sr with
    score := (scorePlan (getPlannedResources sr.details) expected).1
    message := (scorePlan (getPlannedResources sr.details) expected).2
    status :=
      if (scorePlan (getPlannedResources sr.details) expected).1 < 1 then StageStatus.PASSED
      else sr.status }

/-- `_run_cleanup_if_needed` (`evaluator.py` lines 175-181): invoke the cleanup
script when the instance declares a setup script and `cleanup.sh` exists. -/
def cleanupCalls (inst : BenchmarkInstance) (env : EnvBehavior) : List EnvCall :=
  if truthy inst.setup_script && env.cleanupShExists then [EnvCall.cleanupScript] else []

/-- Stages 4-6 of `evaluate_instance` (`evaluator.py` lines 120-149): apply
(optional), validation script (optional), destroy (optional, discarded), and
the final `_run_cleanup_if_needed`.  `pre`/`log` carry the already recorded
stages and environment calls. -/
def pipelineTail (inst : BenchmarkInstance) (cfg : EvalConfig) (env : EnvBehavior)
    (pre : List StageResult) (log : List EnvCall) : List StageResult × List EnvCall :=
  if cfg.run_apply then
    if (mkStage "apply" env.applyOutcome).status = StageStatus.PASSED then
      if cfg.run_validation && truthy inst.validation_script then
        (pre ++ [mkStage "apply" env.applyOutcome,
                 mkStage "validation_script" env.validationOutcome],
         (if cfg.run_destroy then
            log ++ [EnvCall.apply, EnvCall.validationScript, EnvCall.destroy]
          else log ++ [EnvCall.apply, EnvCall.validationScript]) ++ cleanupCalls inst env)
      else
        (pre ++ [mkStage "apply" env.applyOutcome],
         (if cfg.run_destroy then log ++ [EnvCall.apply, EnvCall.destroy]
          else log ++ [EnvCall.apply]) ++ cleanupCalls inst env)
    else
      (pre ++ [mkStage "apply" env.applyOutcome] ++ skipRemaining ["validation_script"],
       (if cfg.run_destroy then log ++ [EnvCall.apply, EnvCall.destroy]
        else log ++ [EnvCall.apply]) ++ cleanupCalls inst env)
  else
    (pre, log ++ cleanupCalls inst env)

/-- Stage 3 of `evaluate_instance` (`evaluator.py` lines 101-118): plan, then
rescoring on success or skip-and-return on failure. -/
def pipelineFromPlan (inst : BenchmarkInstance) (cfg : EvalConfig) (env : EnvBehavior)
    (pre : List StageResult) (log : List EnvCall) : List StageResult × List EnvCall :=
  if (mkStage "plan" env.planOutcome).status = StageStatus.PASSED then
    pipelineTail inst cfg env
      (pre ++ [applyPlanScoring (mkStage "plan" env.planOutcome) inst.expected_resources])
      (log ++ [EnvCall.plan])
  else
    (pre ++ [mkStage "plan" env.planOutcome] ++ skipRemaining ["apply", "validation_script"],
     log ++ [EnvCall.plan])

/-- Stage 2 of `evaluate_instance` (`evaluator.py` lines 92-99). -/
def pipelineFromValidate (inst : BenchmarkInstance) (cfg : EvalConfig) (env : EnvBehavior)
    (pre : List StageResult) (log : List EnvCall) : List StageResult × List EnvCall :=
  if (mkStage "validate" env.validateOutcome).status = StageStatus.PASSED then
    pipelineFromPlan inst cfg env (pre ++ [mkStage "validate" env.validateOutcome])
      (log ++ [EnvCall.validate])
  else
    (pre ++ [mkStage "validate" env.validateOutcome] ++
       skipRemaining ["plan", "apply", "validation_script"],
     log ++ [EnvCall.validate])

/-- Stage 1 of `evaluate_instance` (`evaluator.py` lines 83-90). -/
def pipelineFromInit (inst : BenchmarkInstance) (cfg : EvalConfig) (env : EnvBehavior)
    (pre : List StageResult) (log : List EnvCall) : List StageResult × List EnvCall :=
  if (mkStage "init" env.initOutcome).status = StageStatus.PASSED then
    pipelineFromValidate inst cfg env (pre ++ [mkStage "init" env.initOutcome])
      (log ++ [EnvCall.init])
  else
    (pre ++ [mkStage "init" env.initOutcome] ++
       skipRemaining ["validate", "plan", "apply", "validation_script"],
     log ++ [EnvCall.init])

/-- Stage 0 of `evaluate_instance` (`evaluator.py` lines 73-81) followed by the
rest of the pipeline: the recorded stage list and the environment call log. -/
def pipelineStages (inst : BenchmarkInstance) (cfg : EvalConfig) (env : EnvBehavior) :
    List StageResult × List EnvCall :=
  if truthy inst.setup_script then
    if (mkStage "setup_script" env.setupOutcome).status = StageStatus.PASSED then
      pipelineFromInit inst cfg env [mkStage "setup_script" env.setupOutcome]
        [EnvCall.setupScript]
    else
      (mkStage "setup_script" env.setupOutcome ::
         skipRemaining ["init", "validate", "plan", "apply", "validation_script"],
       [EnvCall.setupScript])
  else pipelineFromInit inst cfg env [] []

/-- `evaluate_instance` (`evaluator.py` lines 30-157): builds the
`InstanceResult` (the function itself never sets `total_score`; its caller
does) and, in this model, also returns the environment call log. -/
def evaluateInstance (inst : BenchmarkInstance) (files : List (String × String))
    (cfg : EvalConfig) (env : EnvBehavior) : InstanceResult × List EnvCall :=
  (({ instance_id := inst.instance_id, generated_files := files,
      stages := (pipelineStages inst cfg env).1 } : InstanceResult),
   (pipelineStages inst cfg env).2)

/-- Outcome of the generation collaborator (`generate_hcl` /
`generate_hcl_with_tools` in `run_instance`): generated files plus trace on
success, or the stringified exception. -/
inductive GenOutcome where
  | success (files : List (String × String)) (toolCalls : List String)
      (prompt : Option String)
  | failure (message : String)
  deriving DecidableEq, Repr

/-- `run_instance` (`agent.py` lines 16-88): on generation failure return an
`InstanceResult` carrying only the error; otherwise evaluate, attach model,
tool calls and prompt, and compute the total score.  The second component is
the environment call log (empty when no evaluation ran). -/
def runInstance (inst : BenchmarkInstance) (modelName : String) (cfg : EvalConfig)
    (gen : GenOutcome) (env : EnvBehavior) : InstanceResult × List EnvCall :=
  match gen with
  | GenOutcome.failure e =>
      (({ instance_id := inst.instance_id, model := modelName,
          error := some ("Generation failed: " ++ e) } : InstanceResult), [])
  | GenOutcome.success files toolCalls prompt =>
      let r := evaluateInstance inst files cfg env
      ({ r.1 with
         model := modelName
         tool_calls := toolCalls
         prompt := prompt
         total_score := computeTotalScore r.1.stages }, r.2)

/-! ### The fixed stage order and derived notions used by the claims -/

/-- The fixed order of the recordable pipeline stages (§4.2 of the spec):
`setup_script, init, validate, plan, apply, validation_script`. -/
def stageOrderList : List String :=
  ["setup_script", "init", "validate", "plan", "apply", "validation_script"]

/-- Position of a stage name in the fixed order (`6` for names outside it). -/
def stageIdx (name : String) : Nat :=
  if name = "setup_script" then 0
  else if name = "init" then 1
  else if name = "validate" then 2
  else if name = "plan" then 3
  else if name = "apply" then 4
  else if name = "validation_script" then 5
  else 6

/-- P1 of the spec, as a predicate on a recorded stage list: any stage recorded
as `FAILED` or `ERROR` is followed (in the fixed order) only by stages present
with status `SKIPPED` and score `0.0`. -/
def skipCoverage (stages : List StageResult) : Prop :=
  ∀ s ∈ stages, (s.status = StageStatus.FAILED ∨ s.status = StageStatus.ERROR) →
    ∀ name ∈ stageOrderList, stageIdx s.stage < stageIdx name →
      ∃ t ∈ stages, t.stage = name ∧ t.status = StageStatus.SKIPPED ∧ t.score = 0

/-- The dry run and everything before it succeeded (setup script, when the
instance declares one, then init, validate and plan): the condition under which
`evaluate_instance` reaches its lines 120-149. -/
def planSucceededB (inst : BenchmarkInstance) (env : EnvBehavior) : Bool :=
  (!truthy inst.setup_script || decide (env.setupOutcome.status = StageStatus.PASSED))
  && decide (env.initOutcome.status = StageStatus.PASSED)
  && decide (env.validateOutcome.status = StageStatus.PASSED)
  && decide (env.planOutcome.status = StageStatus.PASSED)

/-! ### Concrete sample data for witnesses and counterexamples -/

/-- A passed stage outcome. -/
def passedOutcome : StageOutcome :=
  { status := StageStatus.PASSED, score := 1, message := "ok" }

/-- A failed stage outcome (score `0.0`, as every environment method records
on failure). -/
def failedOutcome : StageOutcome :=
  { status := StageStatus.FAILED, score := 0, message := "failed" }

/-- A sample instance with a setup script. -/
def sampleInstSetup : BenchmarkInstance :=
  { instance_id := "terraform-aws-001",
    expected_resources := [("aws_s3_bucket", 1)],
    setup_script := some "dataset/route53_rds_split_dns/setup.sh" }

/-- A sample instance without a setup script. -/
def sampleInstPlain : BenchmarkInstance :=
  { instance_id := "terraform-aws-002" }

/-- An environment oracle where every call succeeds and `cleanup.sh` exists. -/
def envAllPass : EnvBehavior :=
  { setupOutcome := passedOutcome, initOutcome := passedOutcome,
    validateOutcome := passedOutcome, planOutcome := passedOutcome,
    applyOutcome := passedOutcome, validationOutcome := passedOutcome,
    destroyOutcome := passedOutcome, cleanupOutcome := passedOutcome,
    cleanupShExists := true }

/-- An environment oracle where `terraform init` fails and everything else
would succeed. -/
def envInitFails : EnvBehavior :=
  { envAllPass with initOutcome := failedOutcome }

/-- The default `EvalConfig` (plan-only, destroy enabled). -/
def cfgDefault : EvalConfig := {}

/-- An `EvalConfig` with apply and destroy enabled. -/
def cfgApply : EvalConfig :=
  { run_apply := true
    run_destroy := true }

/-- Scenario B's passed plan stage: the dry run succeeded but planned
nothing. -/
def srPlanB : StageResult :=
  { stage := "plan", status := StageStatus.PASSED, score := 1,
    message := "Plan succeeded with 0 resource(s)",
    details := Details.plannedResources [] }

/-- Scenario B's expected manifest. -/
def expLambda : List (String × Nat) := [("aws_lambda_function", 1)]

/-! ## Basic lemmas about the embedded definitions -/

@[simp] theorem mkStage_stage (n : String) (o : StageOutcome) : (mkStage n o).stage = n := rfl

@[simp] theorem mkStage_status (n : String) (o : StageOutcome) :
    (mkStage n o).status = o.status := rfl

@[simp] theorem mkStage_score (n : String) (o : StageOutcome) : (mkStage n o).score = o.score := rfl

@[simp] theorem skipResult_stage (n : String) : (skipResult n).stage = n := rfl

@[simp] theorem skipResult_status (n : String) :
    (skipResult n).status = StageStatus.SKIPPED := rfl

@[simp] theorem skipResult_score (n : String) : (skipResult n).score = 0 := rfl

@[simp] theorem evaluateInstance_stages (inst : BenchmarkInstance)
    (files : List (String × String)) (cfg : EvalConfig) (env : EnvBehavior) :
    ((evaluateInstance inst files cfg env).1).stages = (pipelineStages inst cfg env).1 := rfl

@[simp] theorem evaluateInstance_log (inst : BenchmarkInstance)
    (files : List (String × String)) (cfg : EvalConfig) (env : EnvBehavior) :
    (evaluateInstance inst files cfg env).2 = (pipelineStages inst cfg env).2 := rfl

theorem STAGE_WEIGHTS_pos (s : String) : 0 < STAGE_WEIGHTS s := by
  unfold STAGE_WEIGHTS
  split_ifs <;> norm_num

theorem typeRatio_nonneg (p e : Nat) : 0 ≤ typeRatio p e := by
  unfold typeRatio
  positivity

theorem typeRatio_le_one (p e : Nat) (he : e ≠ 0) : typeRatio p e ≤ 1 := by
  unfold typeRatio
  have hmax : (0 : ℚ) < ((max p e : Nat) : ℚ) := by
    exact_mod_cast lt_of_lt_of_le (Nat.pos_of_ne_zero he) (le_max_right p e)
  rw [div_le_one hmax]
  exact_mod_cast min_le_max

theorem mem_typeScores (planned expected : List (String × Nat)) (x : ℚ)
    (hx : x ∈ typeScores planned expected) : 0 ≤ x ∧ x ≤ 1 := by
  unfold typeScores at hx
  obtain ⟨p, hp, rfl⟩ := List.mem_map.mp hx
  have hz : p.2 ≠ 0 := by simpa using List.of_mem_filter hp
  exact ⟨typeRatio_nonneg _ _, typeRatio_le_one _ _ hz⟩

theorem avgTypeScore_nonneg (planned expected : List (String × Nat)) :
    0 ≤ avgTypeScore planned expected := by
  unfold avgTypeScore
  split
  · norm_num
  · apply div_nonneg
    · exact List.sum_nonneg fun x hx => (mem_typeScores planned expected x hx).1
    · positivity

theorem avgTypeScore_le_one (planned expected : List (String × Nat)) :
    avgTypeScore planned expected ≤ 1 := by
  unfold avgTypeScore
  split
  · norm_num
  · next hne =>
    have hlen : 0 < ((typeScores planned expected).length : ℚ) := by
      have : typeScores planned expected ≠ [] := by
        simpa [List.isEmpty_iff] using hne
      exact_mod_cast List.length_pos.mpr this
    rw [div_le_one hlen]
    have := List.sum_le_card_nsmul (typeScores planned expected) 1
      (fun x hx => (mem_typeScores planned expected x hx).2)
    simpa [nsmul_eq_mul] using this

theorem unexpectedPenalty_nonneg (planned expected : List (String × Nat)) :
    0 ≤ unexpectedPenalty planned expected :=
  le_min (by positivity) (by norm_num)

theorem unexpectedPenalty_le (planned expected : List (String × Nat)) :
    unexpectedPenalty planned expected ≤ 3/10 :=
  min_le_right _ _

theorem scorePlan_fst (planned expected : List (String × Nat)) (h : expected ≠ []) :
    (scorePlan planned expected).1 =
      max 0 (avgTypeScore planned expected - unexpectedPenalty planned expected) := by
  cases expected with
  | nil => exact absurd rfl h
  | cons p tl => rfl

theorem scorePlan_snd (planned expected : List (String × Nat)) (h : expected ≠ []) :
    (scorePlan planned expected).2 = scorePlanMessage planned expected := by
  cases expected with
  | nil => exact absurd rfl h
  | cons p tl => rfl

theorem foldl_scoreStep (stages : List StageResult) (a : ℚ × ℚ) :
    stages.foldl scoreStep a = (a.1 + scoredNum stages, a.2 + scoredDen stages) := by
  induction stages generalizing a with
  | nil => simp [scoredNum, scoredDen]
  | cons s tl ih =>
    rw [List.foldl_cons, ih]
    by_cases h1 : s.status = StageStatus.SKIPPED
    · simp [scoreStep, scoredNum, scoredDen, isScored, h1]
    · by_cases h2 : s.stage ∈ UNSCORED_STAGES
      · simp [scoreStep, scoredNum, scoredDen, isScored, h1, h2]
      · have hsc : isScored s = true := by simp [isScored, h1, h2]
        simp only [scoreStep, if_neg h1, if_neg h2, scoredNum, scoredDen, List.filter_cons,
          hsc, if_true, List.map_cons, List.sum_cons, Prod.mk.injEq]
        constructor <;> ring

theorem scoredDen_nonneg (stages : List StageResult) : 0 ≤ scoredDen stages := by
  unfold scoredDen
  apply List.sum_nonneg
  intro x hx
  obtain ⟨s, _, rfl⟩ := List.mem_map.mp hx
  exact le_of_lt (STAGE_WEIGHTS_pos _)

theorem computeTotalScore_eq_spec (stages : List StageResult) :
    computeTotalScore stages = specTotalScore stages := by
  unfold computeTotalScore specTotalScore
  rw [foldl_scoreStep]
  simp only [zero_add]
  rcases eq_or_lt_of_le (scoredDen_nonneg stages) with h | h
  · rw [if_neg (by rw [← h]; exact lt_irrefl 0), if_pos h.symm]
  · rw [if_pos h, if_neg (ne_of_gt h)]

theorem applyPlanScoring_status_passed (sr : StageResult) (expected : List (String × Nat))
    (h : sr.status = StageStatus.PASSED) :
    (applyPlanScoring sr expected).status = StageStatus.PASSED := by
  unfold applyPlanScoring
  dsimp only
  split
  · rfl
  · exact h

/-! ## Claim theorems -/

/-- C2: the score component of `score_plan` always lies in `[0.0, 1.0]`, and
`compute_total_score` returns a value in `[0.0, 1.0]` whenever every recorded
stage score lies in `[0.0, 1.0]`. -/
theorem c2_score_bounds :
    (∀ planned expected : List (String × Nat),
        0 ≤ (scorePlan planned expected).1 ∧ (scorePlan planned expected).1 ≤ 1) ∧
    (∀ stages : List StageResult,
        (∀ s ∈ stages, 0 ≤ s.score ∧ s.score ≤ 1) →
        0 ≤ computeTotalScore stages ∧ computeTotalScore stages ≤ 1) := by
  constructor
  · intro planned expected
    cases expected with
    | nil =>
      cases planned with
      | nil => constructor <;> norm_num [scorePlan]
      | cons p tl => constructor <;> norm_num [scorePlan]
    | cons p tl =>
      rw [scorePlan_fst planned (p :: tl) (by simp)]
      refine ⟨le_max_left 0 _, max_le (by norm_num) ?_⟩
      have h1 := avgTypeScore_le_one planned (p :: tl)
      have h2 := unexpectedPenalty_nonneg planned (p :: tl)
      linarith
  · intro stages h
    rw [computeTotalScore_eq_spec]
    unfold specTotalScore
    by_cases hd : scoredDen stages = 0
    · rw [if_pos hd]
      norm_num
    · rw [if_neg hd]
      have hden : 0 < scoredDen stages := lt_of_le_of_ne (scoredDen_nonneg _) (Ne.symm hd)
      have hnum0 : 0 ≤ scoredNum stages := by
        unfold scoredNum
        apply List.sum_nonneg
        intro x hx
        obtain ⟨s, hs, rfl⟩ := List.mem_map.mp hx
        exact mul_nonneg (le_of_lt (STAGE_WEIGHTS_pos _)) (h s (List.mem_of_mem_filter hs)).1
      have hnumden : scoredNum stages ≤ scoredDen stages := by
        unfold scoredNum scoredDen
        apply List.sum_le_sum
        intro s hs
        have hsc := (h s (List.mem_of_mem_filter hs)).2
        calc STAGE_WEIGHTS s.stage * s.score
            ≤ STAGE_WEIGHTS s.stage * 1 :=
              mul_le_mul_of_nonneg_left hsc (le_of_lt (STAGE_WEIGHTS_pos _))
          _ = STAGE_WEIGHTS s.stage := mul_one _
      exact ⟨div_nonneg hnum0 (le_of_lt hden), by rw [div_le_one hden]; exact hnumden⟩

/-- C2 witness: both bounds at concrete inputs. -/
theorem c2_score_bounds_witness :
    (0 ≤ (scorePlan [("aws_s3_bucket", 2)] expLambda).1 ∧
      (scorePlan [("aws_s3_bucket", 2)] expLambda).1 ≤ 1) ∧
    (∀ s ∈ [srPlanB], 0 ≤ s.score ∧ s.score ≤ 1) ∧
    (0 ≤ computeTotalScore [srPlanB] ∧ computeTotalScore [srPlanB] ≤ 1) := by
  have hs : ∀ s ∈ [srPlanB], 0 ≤ s.score ∧ s.score ≤ 1 := by
    intro s hs
    rw [List.mem_singleton] at hs
    subst hs
    norm_num [srPlanB]
  exact ⟨c2_score_bounds.1 _ _, hs, c2_score_bounds.2 [srPlanB] hs⟩

/-- C3: `compute_total_score` equals the spec's weighted average over exactly
the non-skipped stages outside the unscored set, with weights init `0.1`,
validate `0.2`, plan `0.4`, apply `0.2`, validation_script `0.1` and `0.1` for
any other name, returning `0.0` when no scored stage exists; an
`InstanceResult` whose only stage is `destroy` has total score `0.0`. -/
theorem c3_weighted_average :
    (∀ stages : List StageResult, computeTotalScore stages = specTotalScore stages) ∧
    (∀ o : StageOutcome, computeTotalScore [mkStage "destroy" o] = 0) := by
  refine ⟨computeTotalScore_eq_spec, ?_⟩
  intro o
  have hstep : scoreStep (0, 0) (mkStage "destroy" o) = (0, 0) := by
    unfold scoreStep
    split
    · rfl
    · have hmem : (mkStage "destroy" o).stage ∈ UNSCORED_STAGES := by
        show ("destroy" : String) ∈ UNSCORED_STAGES
        decide
      rw [if_pos hmem]
  unfold computeTotalScore
  rw [List.foldl_cons, hstep, List.foldl_nil]
  norm_num

/-- C7: for a nonempty expected map, the score of `score_plan` is exactly the
averaged type score minus the capped unexpected-type penalty
`min(0.1 * count_of_unexpected_types, 0.3)` (floored at `0`), and in
particular never falls below `max(0, averaged_type_score - 0.3)`, no matter
how many unexpected resource types `planned` contains. -/
theorem c7_penalty_cap (planned expected : List (String × Nat)) (h : expected ≠ []) :
    (scorePlan planned expected).1 =
      max 0 (avgTypeScore planned expected -
        min (((unexpectedTypes planned expected).length : ℚ) * (1/10)) (3/10)) ∧
    max 0 (avgTypeScore planned expected - 3/10) ≤ (scorePlan planned expected).1 := by
  have h1 := scorePlan_fst planned expected h
  constructor
  · rw [h1]
    rfl
  · rw [h1]
    apply max_le_max (le_refl 0)
    have := unexpectedPenalty_le planned expected
    linarith

/-- C7 witness: four unexpected resource types on an otherwise exact plan. -/
theorem c7_penalty_cap_witness :
    (([("aws_lambda_function", 1)] : List (String × Nat)) ≠ []) ∧
    max 0 (avgTypeScore [("aws_lambda_function", 1), ("b", 1), ("c", 1), ("d", 1), ("e", 1)]
        [("aws_lambda_function", 1)] - 3/10) ≤
      (scorePlan [("aws_lambda_function", 1), ("b", 1), ("c", 1), ("d", 1), ("e", 1)]
        [("aws_lambda_function", 1)]).1 :=
  ⟨by decide, (c7_penalty_cap _ _ (by decide)).2⟩

/-- C5: rescoring a passed plan stage with the resource-count scorer changes
only `score` and `message`; the status stays `PASSED` and `stage`,
`duration_seconds`, `raw_output` and `details` are untouched. -/
theorem c5_scorer_frame (sr : StageResult) (expected : List (String × Nat))
    (h : sr.status = StageStatus.PASSED) :
    (applyPlanScoring sr expected).status = StageStatus.PASSED ∧
    (applyPlanScoring sr expected).stage = sr.stage ∧
    (applyPlanScoring sr expected).duration_seconds = sr.duration_seconds ∧
    (applyPlanScoring sr expected).raw_output = sr.raw_output ∧
    (applyPlanScoring sr expected).details = sr.details ∧
    (applyPlanScoring sr expected).score =
      (scorePlan (getPlannedResources sr.details) expected).1 ∧
    (applyPlanScoring sr expected).message =
      (scorePlan (getPlannedResources sr.details) expected).2 :=
  ⟨applyPlanScoring_status_passed sr expected h, rfl, rfl, rfl, rfl, rfl, rfl⟩

/-- C5 witness: Scenario B — a passed dry run that planned nothing keeps its
`PASSED` status and its other fields while being rescored to `0.0` with the
mismatch message. -/
theorem c5_scorer_frame_witness :
    srPlanB.status = StageStatus.PASSED ∧
    (applyPlanScoring srPlanB expLambda).status = StageStatus.PASSED ∧
    (applyPlanScoring srPlanB expLambda).stage = srPlanB.stage ∧
    (applyPlanScoring srPlanB expLambda).details = srPlanB.details ∧
    (applyPlanScoring srPlanB expLambda).score = 0 ∧
    (applyPlanScoring srPlanB expLambda).message = "aws_lambda_function: expected 1, got 0" := by
  obtain ⟨h1, h2, _, _, h5, h6, h7⟩ := c5_scorer_frame srPlanB expLambda rfl
  refine ⟨rfl, h1, h2, h5, ?_, ?_⟩
  · rw [h6]
    show (scorePlan [] expLambda).1 = 0
    rw [scorePlan_fst [] expLambda (by decide)]
    have havg : avgTypeScore [] expLambda = 0 := by
      norm_num [avgTypeScore, typeScores, expLambda, lookup0, typeRatio]
    have hpen : unexpectedPenalty [] expLambda = 0 := by
      have hu : unexpectedTypes [] expLambda = [] := rfl
      unfold unexpectedPenalty
      rw [hu]
      norm_num
    rw [havg, hpen]
    norm_num
  · rw [h7]
    show (scorePlan [] expLambda).2 = _
    rw [scorePlan_snd [] expLambda (by decide)]
    decide

/-- C9: when the generation collaborator raises, `run_instance` returns an
`InstanceResult` whose `error` carries the exception text, with no recorded
stages, total score `0.0`, and no environment call made. -/
theorem c9_generation_failure (inst : BenchmarkInstance) (modelName : String)
    (cfg : EvalConfig) (env : EnvBehavior) (e : String) :
    (runInstance inst modelName cfg (GenOutcome.failure e) env).1.error =
        some ("Generation failed: " ++ e) ∧
    (runInstance inst modelName cfg (GenOutcome.failure e) env).1.stages = [] ∧
    (runInstance inst modelName cfg (GenOutcome.failure e) env).1.total_score = 0 ∧
    (runInstance inst modelName cfg (GenOutcome.failure e) env).2 = [] :=
  ⟨rfl, rfl, rfl, rfl⟩

/-- C8 counterexample: a missing executable is converted by `run_command` to
`returncode = -1`, which `terraform_init` records as `FAILED`, not `ERROR` —
contrary to the claim that a missing executable yields status `Error`. -/
theorem c8_counterexample :
    (terraformInit (runCommand (ProcOutcome.notFound "terraform" 0))).status =
        StageStatus.FAILED ∧
    (terraformInit (runCommand (ProcOutcome.notFound "terraform" 0))).status ≠
        StageStatus.ERROR := by
  constructor
  · rfl
  · decide

/-- C8 (amended): a JSON-parse failure yields status `ERROR` (`terraform
validate -json` parse failure, `terraform show -json` parse failure or nonzero
exit), and an ordinary nonzero tool exit yields `FAILED`; but a missing
executable surfaces as `returncode = -1` and is classified like a nonzero
exit, so `terraform_init` (and the `plan` command) record it as `FAILED`, not
`ERROR`. -/
theorem c8_error_classification :
    (∀ r : CommandResult, (terraformValidate r none).status = StageStatus.ERROR) ∧
    (∀ (pc sc : CommandResult) (e : ℚ), pc.returncode = 0 → sc.returncode = 0 →
        (terraformPlanStage pc sc none e).status = StageStatus.ERROR) ∧
    (∀ (pc sc : CommandResult) (p : Option (List ResourceChange)) (e : ℚ),
        pc.returncode = 0 → sc.returncode ≠ 0 →
        (terraformPlanStage pc sc p e).status = StageStatus.ERROR) ∧
    (∀ (pc sc : CommandResult) (p : Option (List ResourceChange)) (e : ℚ),
        pc.returncode ≠ 0 → (terraformPlanStage pc sc p e).status = StageStatus.FAILED) ∧
    (∀ r : CommandResult, r.returncode ≠ 0 → (terraformInit r).status = StageStatus.FAILED) ∧
    (∀ (prog : String) (d : ℚ),
        (terraformInit (runCommand (ProcOutcome.notFound prog d))).status =
          StageStatus.FAILED) := by
  refine ⟨fun r => rfl, ?_, ?_, ?_, ?_, fun prog d => rfl⟩
  · intro pc sc e h1 h2
    unfold terraformPlanStage
    rw [if_neg (by simp [h1]), if_neg (by simp [h2])]
  · intro pc sc p e h1 h2
    unfold terraformPlanStage
    rw [if_neg (by simp [h1]), if_pos h2]
  · intro pc sc p e h1
    unfold terraformPlanStage
    rw [if_pos h1]
  · intro r h
    unfold terraformInit
    rw [if_neg h]

/-- C8 witness: the amended classification at concrete command results. -/
theorem c8_error_classification_witness :
    (terraformValidate ⟨0, "", "", 0⟩ none).status = StageStatus.ERROR ∧
    (terraformPlanStage ⟨0, "ok", "", 0⟩ ⟨0, "not json", "", 0⟩ none 0).status =
        StageStatus.ERROR ∧
    (terraformInit ⟨1, "", "boom", 0⟩).status = StageStatus.FAILED ∧
    (terraformInit (runCommand (ProcOutcome.notFound "terraform" 1))).status =
        StageStatus.FAILED :=
  ⟨c8_error_classification.1 _,
   c8_error_classification.2.1 _ _ _ rfl rfl,
   c8_error_classification.2.2.2.2.1 _ (by decide),
   c8_error_classification.2.2.2.2.2 "terraform" 1⟩

theorem lookup_self (m : List (String × Nat)) (hnd : (m.map Prod.fst).Nodup)
    (p : String × Nat) (hp : p ∈ m) : m.lookup p.1 = some p.2 := by
  induction m with
  | nil => cases hp
  | cons q tl ih =>
    rw [List.map_cons, List.nodup_cons] at hnd
    rcases List.mem_cons.mp hp with h | h
    · subst h
      simp [List.lookup]
    · have hne : ¬ p.1 = q.1 := by
        intro he
        exact hnd.1 (he ▸ List.mem_map.mpr ⟨p, h, rfl⟩)
      have : (p.1 == q.1) = false := by
        simpa using hne
      simp only [List.lookup, this]
      exact ih hnd.2 h

theorem lookup_isSome_of_mem_keys (m : List (String × Nat)) (k : String)
    (h : k ∈ m.map Prod.fst) : (m.lookup k).isSome = true := by
  induction m with
  | nil => simp at h
  | cons q tl ih =>
    by_cases he : k = q.1
    · have : (k == q.1) = true := by simpa using he
      simp [List.lookup, this]
    · have hb : (k == q.1) = false := by simpa using he
      simp only [List.lookup, hb]
      rw [List.map_cons, List.mem_cons] at h
      rcases h with h | h
      · exact absurd h he
      · exact ih h

theorem sum_ones (l : List ℚ) (h : ∀ x ∈ l, x = 1) : l.sum = (l.length : ℚ) := by
  induction l with
  | nil => simp
  | cons a tl ih =>
    rw [List.sum_cons, h a (List.mem_cons_self a tl),
      ih (fun x hx => h x (List.mem_cons_of_mem a hx)), List.length_cons]
    push_cast
    ring

/-- C6 counterexample: for the map `{"aws_s3_bucket": 0}` (equal `planned` and
`expected`), `score_plan` returns score `0.0`, not `1.0` — expected types with
count `0` contribute no type score, so the average defaults to `0.0`. -/
theorem c6_counterexample :
    (scorePlan [("aws_s3_bucket", 0)] [("aws_s3_bucket", 0)]).1 = 0 ∧
    (scorePlan [("aws_s3_bucket", 0)] [("aws_s3_bucket", 0)]).1 ≠ 1 := by
  have h : (scorePlan [("aws_s3_bucket", 0)] [("aws_s3_bucket", 0)]).1 = 0 := by
    rw [scorePlan_fst _ _ (by decide)]
    have havg : avgTypeScore [("aws_s3_bucket", 0)] [("aws_s3_bucket", 0)] = 0 := by
      have hts : typeScores [("aws_s3_bucket", 0)] [("aws_s3_bucket", 0)] = [] := by decide
      unfold avgTypeScore
      rw [hts]
      rfl
    have hpen : unexpectedPenalty [("aws_s3_bucket", 0)] [("aws_s3_bucket", 0)] = 0 := by
      have hu : unexpectedTypes [("aws_s3_bucket", 0)] [("aws_s3_bucket", 0)] = [] := by decide
      unfold unexpectedPenalty
      rw [hu]
      norm_num
    rw [havg, hpen]
    norm_num
  exact ⟨h, by rw [h]; norm_num⟩

/-- C6 (amended): for a map `m` with distinct keys and at least one nonzero
count, `score_plan(m, m)` returns exactly `(1.0, "All resources match expected
counts")` — no mismatch entry is produced; equal maps whose counts are all
zero instead score `0.0`. -/
theorem c6_equal_maps_score_one (m : List (String × Nat))
    (hnd : (m.map Prod.fst).Nodup) (hnz : ∃ p ∈ m, p.2 ≠ 0) :
    scorePlan m m = (1, "All resources match expected counts") := by
  obtain ⟨p0, hp0, hp0nz⟩ := hnz
  have hne : m ≠ [] := by
    rintro rfl
    cases hp0
  have hlk : ∀ p ∈ m, lookup0 m p.1 = p.2 := by
    intro p hp
    unfold lookup0
    rw [lookup_self m hnd p hp]
    rfl
  have hts : ∀ x ∈ typeScores m m, x = 1 := by
    intro x hx
    unfold typeScores at hx
    obtain ⟨p, hp, rfl⟩ := List.mem_map.mp hx
    have hpm : p ∈ m := List.mem_of_mem_filter hp
    have hpz : p.2 ≠ 0 := by simpa using List.of_mem_filter hp
    rw [hlk p hpm]
    unfold typeRatio
    rw [min_self, max_self]
    exact div_self (by exact_mod_cast hpz)
  have htsne : typeScores m m ≠ [] := by
    unfold typeScores
    have hmem : p0 ∈ m.filter (fun p => decide (p.2 ≠ 0)) :=
      List.mem_filter.mpr ⟨hp0, by simpa using hp0nz⟩
    intro hc
    rw [List.map_eq_nil_iff] at hc
    rw [hc] at hmem
    cases hmem
  have havg : avgTypeScore m m = 1 := by
    unfold avgTypeScore
    rw [if_neg (by simpa [List.isEmpty_iff] using htsne)]
    rw [sum_ones _ hts]
    exact div_self (Nat.cast_ne_zero.mpr (List.length_pos.mpr htsne).ne')
  have hu : unexpectedTypes m m = [] := by
    unfold unexpectedTypes
    rw [List.filter_eq_nil_iff]
    intro k hk
    have hkm : k ∈ m.map Prod.fst := List.mem_dedup.mp hk
    obtain ⟨v, hv⟩ := Option.isSome_iff_exists.mp (lookup_isSome_of_mem_keys m k hkm)
    simp [hv]
  have hpen : unexpectedPenalty m m = 0 := by
    unfold unexpectedPenalty
    rw [hu]
    norm_num
  have hmm : mismatchMessages m m = [] := by
    unfold mismatchMessages
    rw [List.filterMap_eq_nil_iff]
    intro p hp
    rw [if_neg (by rw [hlk p (List.mem_of_mem_filter hp)]; exact fun h => h rfl)]
  have h1 : (scorePlan m m).1 = 1 := by
    rw [scorePlan_fst m m hne, havg, hpen]
    norm_num
  have h2 : (scorePlan m m).2 = "All resources match expected counts" := by
    rw [scorePlan_snd m m hne]
    unfold scorePlanMessage
    rw [hmm, hu]
    rfl
  rw [Prod.ext_iff]
  exact ⟨h1, h2⟩

/-- C6 witness: Scenario A — plan exactly matches the expected two-type
manifest, score `1.0`, message `"All resources match expected counts"`. -/
theorem c6_equal_maps_score_one_witness :
    ((([("aws_s3_bucket", 1), ("aws_dynamodb_table", 1)] : List (String × Nat)).map
        Prod.fst).Nodup) ∧
    scorePlan [("aws_s3_bucket", 1), ("aws_dynamodb_table", 1)]
        [("aws_s3_bucket", 1), ("aws_dynamodb_table", 1)] =
      (1, "All resources match expected counts") :=
  ⟨by decide, c6_equal_maps_score_one _ (by decide) (by decide)⟩

/-! ## Skip-propagation machinery for the pipeline -/

theorem afterNames_setup :
    ∀ name ∈ stageOrderList, stageIdx "setup_script" < stageIdx name →
      name ∈ ["init", "validate", "plan", "apply", "validation_script"] := by decide

theorem afterNames_validate :
    ∀ name ∈ stageOrderList, stageIdx "validate" < stageIdx name →
      name ∈ ["plan", "apply", "validation_script"] := by decide

theorem afterNames_plan :
    ∀ name ∈ stageOrderList, stageIdx "plan" < stageIdx name →
      name ∈ ["apply", "validation_script"] := by decide

theorem afterNames_apply :
    ∀ name ∈ stageOrderList, stageIdx "apply" < stageIdx name →
      name ∈ ["validation_script"] := by decide

theorem afterNames_validation :
    ∀ name ∈ stageOrderList, stageIdx "validation_script" < stageIdx name →
      name ∈ ([] : List String) := by decide

theorem coverage_shape (pre : List StageResult) (x : StageResult) (names : List String)
    (hpre : ∀ s ∈ pre, s.status = StageStatus.PASSED)
    (hnames : ∀ name ∈ stageOrderList, stageIdx x.stage < stageIdx name → name ∈ names) :
    skipCoverage (pre ++ [x] ++ skipRemaining names) := by
  intro s hs hbad name hname hlt
  simp only [List.mem_append, List.mem_singleton] at hs
  rcases hs with (hp | hx) | hsk
  · have := hpre s hp
    rcases hbad with hb | hb <;> rw [this] at hb <;> exact absurd hb (by decide)
  · subst hx
    have hn : name ∈ names := hnames name hname hlt
    refine ⟨skipResult name, ?_, rfl, rfl, rfl⟩
    simp only [List.mem_append]
    right
    exact List.mem_map.mpr ⟨name, hn, rfl⟩
  · obtain ⟨n, hn, rfl⟩ := List.mem_map.mp hsk
    rcases hbad with hb | hb <;> rw [skipResult_status] at hb <;> exact absurd hb (by decide)

theorem coverage_passed (l : List StageResult)
    (h : ∀ s ∈ l, s.status = StageStatus.PASSED) : skipCoverage l := by
  intro s hs hbad
  have := h s hs
  rcases hbad with hb | hb <;> rw [this] at hb <;> exact absurd hb (by decide)

theorem tail_coverage (inst : BenchmarkInstance) (cfg : EvalConfig) (env : EnvBehavior)
    (pre : List StageResult) (log : List EnvCall)
    (hpre : ∀ s ∈ pre, s.status = StageStatus.PASSED) :
    skipCoverage (pipelineTail inst cfg env pre log).1 := by
  unfold pipelineTail
  split
  · split
    next hap =>
      have hpass : ∀ s ∈ pre ++ [mkStage "apply" env.applyOutcome],
          s.status = StageStatus.PASSED := by
        intro s hs
        rcases List.mem_append.mp hs with hp | hx
        · exact hpre s hp
        · rw [List.mem_singleton] at hx
          subst hx
          exact hap
      split
      · have hshape := coverage_shape (pre ++ [mkStage "apply" env.applyOutcome])
          (mkStage "validation_script" env.validationOutcome) [] hpass
          (by simpa using afterNames_validation)
        simpa [skipRemaining, List.append_assoc] using hshape
      · exact coverage_passed _ hpass
    next hap =>
      exact coverage_shape pre (mkStage "apply" env.applyOutcome) ["validation_script"] hpre
        (by simpa using afterNames_apply)
  · exact coverage_passed pre hpre

theorem fromPlan_coverage (inst : BenchmarkInstance) (cfg : EvalConfig) (env : EnvBehavior)
    (pre : List StageResult) (log : List EnvCall)
    (hpre : ∀ s ∈ pre, s.status = StageStatus.PASSED) :
    skipCoverage (pipelineFromPlan inst cfg env pre log).1 := by
  unfold pipelineFromPlan
  split
  next h =>
    apply tail_coverage
    intro s hs
    rcases List.mem_append.mp hs with hp | hx
    · exact hpre s hp
    · rw [List.mem_singleton] at hx
      subst hx
      exact applyPlanScoring_status_passed _ _ h
  next h =>
    exact coverage_shape pre (mkStage "plan" env.planOutcome) ["apply", "validation_script"]
      hpre (by simpa using afterNames_plan)

theorem fromValidate_coverage (inst : BenchmarkInstance) (cfg : EvalConfig) (env : EnvBehavior)
    (pre : List StageResult) (log : List EnvCall)
    (hpre : ∀ s ∈ pre, s.status = StageStatus.PASSED) :
    skipCoverage (pipelineFromValidate inst cfg env pre log).1 := by
  unfold pipelineFromValidate
  split
  next h =>
    apply fromPlan_coverage
    intro s hs
    rcases List.mem_append.mp hs with hp | hx
    · exact hpre s hp
    · rw [List.mem_singleton] at hx
      subst hx
      exact h
  next h =>
    exact coverage_shape pre (mkStage "validate" env.validateOutcome)
      ["plan", "apply", "validation_script"] hpre (by simpa using afterNames_validate)

theorem fromInit_coverage (inst : BenchmarkInstance) (cfg : EvalConfig) (env : EnvBehavior)
    (pre : List StageResult) (log : List EnvCall)
    (hpre : ∀ s ∈ pre, s.status = StageStatus.PASSED) :
    skipCoverage (pipelineFromInit inst cfg env pre log).1 := by
  unfold pipelineFromInit
  split
  next h =>
    apply fromValidate_coverage
    intro s hs
    rcases List.mem_append.mp hs with hp | hx
    · exact hpre s hp
    · rw [List.mem_singleton] at hx
      subst hx
      exact h
  next h =>
    have hnames : ∀ name ∈ stageOrderList,
        stageIdx (mkStage "init" env.initOutcome).stage < stageIdx name →
          name ∈ ["validate", "plan", "apply", "validation_script"] := by
      rw [mkStage_stage]
      decide
    exact coverage_shape pre (mkStage "init" env.initOutcome)
      ["validate", "plan", "apply", "validation_script"] hpre hnames

theorem pipeline_coverage (inst : BenchmarkInstance) (cfg : EvalConfig) (env : EnvBehavior) :
    skipCoverage (pipelineStages inst cfg env).1 := by
  unfold pipelineStages
  split
  · split
    next h =>
      apply fromInit_coverage
      intro s hs
      rw [List.mem_singleton] at hs
      subst hs
      exact h
    next h =>
      have hshape := coverage_shape [] (mkStage "setup_script" env.setupOutcome)
        ["init", "validate", "plan", "apply", "validation_script"] (by simp)
        (by simpa using afterNames_setup)
      simpa using hshape
  · apply fromInit_coverage
    simp

/-- C1 (amended): P1 holds for every evaluation — each recorded stage with
status `FAILED` or `ERROR` is followed, for every name strictly later in the
fixed stage order, by an entry with status `SKIPPED` and score `0.0`; and for
an instance with no setup script whose `terraform init` fails (recording score
`0.0`, as `terraform_init` does on failure), the result is exactly the failed
init stage followed by `SKIPPED` entries for validate, plan, apply and
validation_script in that order, one non-skipped stage in total, and the total
score is `0.0`. -/
theorem c1_skip_propagation :
    (∀ (inst : BenchmarkInstance) (files : List (String × String)) (cfg : EvalConfig)
        (env : EnvBehavior),
        skipCoverage ((evaluateInstance inst files cfg env).1).stages) ∧
    (∀ (inst : BenchmarkInstance) (files : List (String × String)) (cfg : EvalConfig)
        (env : EnvBehavior),
        inst.setup_script = none → env.initOutcome.status = StageStatus.FAILED →
        env.initOutcome.score = 0 →
        ((evaluateInstance inst files cfg env).1).stages =
            mkStage "init" env.initOutcome ::
              skipRemaining ["validate", "plan", "apply", "validation_script"] ∧
          (((evaluateInstance inst files cfg env).1).stages.filter
              (fun s => decide (s.status ≠ StageStatus.SKIPPED))).length = 1 ∧
          computeTotalScore ((evaluateInstance inst files cfg env).1).stages = 0) := by
  constructor
  · intro inst files cfg env
    rw [evaluateInstance_stages]
    exact pipeline_coverage inst cfg env
  · intro inst files cfg env hset hst hsc
    have hstages : ((evaluateInstance inst files cfg env).1).stages =
        mkStage "init" env.initOutcome ::
          skipRemaining ["validate", "plan", "apply", "validation_script"] := by
      rw [evaluateInstance_stages]
      unfold pipelineStages
      rw [if_neg (by rw [hset]; decide)]
      unfold pipelineFromInit
      rw [if_neg (by rw [mkStage_status, hst]; decide)]
      simp
    refine ⟨hstages, ?_, ?_⟩
    · rw [hstages]
      simp [skipRemaining, skipResult, hst]
    · rw [hstages]
      unfold computeTotalScore
      simp only [skipRemaining, List.map_cons, List.map_nil, List.foldl_cons, List.foldl_nil]
      have hw : STAGE_WEIGHTS "init" = 1/10 := rfl
      have h1 : scoreStep (0, 0) (mkStage "init" env.initOutcome) = (0, 1/10) := by
        unfold scoreStep
        rw [if_neg (by rw [mkStage_status, hst]; decide),
          if_neg (by rw [mkStage_stage]; decide)]
        rw [mkStage_score, hsc, mkStage_stage, hw]
        norm_num
      have hskip : ∀ (n : String) (a : ℚ × ℚ), scoreStep a (skipResult n) = a := by
        intro n a
        unfold scoreStep
        rw [if_pos (skipResult_status n)]
      rw [h1, hskip, hskip, hskip, hskip]
      norm_num

/-- C1 counterexample: with a declared setup script that passes and a failing
`terraform init`, the returned result has two non-skipped stages (the passed
setup_script and the failed init), refuting the claim's "exactly one
non-Skipped stage" as universally stated. -/
theorem c1_counterexample :
    ((evaluateInstance sampleInstSetup [] cfgDefault envInitFails).1).stages =
        mkStage "setup_script" passedOutcome ::
          mkStage "init" failedOutcome ::
            skipRemaining ["validate", "plan", "apply", "validation_script"] ∧
    (((evaluateInstance sampleInstSetup [] cfgDefault envInitFails).1).stages.filter
        (fun s => decide (s.status ≠ StageStatus.SKIPPED))).length = 2 := by
  constructor <;> decide

/-- C1 witness: the amended scenario at a concrete instance and oracle. -/
theorem c1_skip_propagation_witness :
    sampleInstPlain.setup_script = none ∧
    envInitFails.initOutcome.status = StageStatus.FAILED ∧
    ((evaluateInstance sampleInstPlain [] cfgDefault envInitFails).1).stages =
        mkStage "init" envInitFails.initOutcome ::
          skipRemaining ["validate", "plan", "apply", "validation_script"] ∧
    computeTotalScore ((evaluateInstance sampleInstPlain [] cfgDefault envInitFails).1).stages
        = 0 := by
  obtain ⟨h1, _, h3⟩ :=
    c1_skip_propagation.2 sampleInstPlain [] cfgDefault envInitFails rfl rfl rfl
  exact ⟨rfl, rfl, h1, h3⟩

/-! ## Cleanup- and destroy-call machinery for the pipeline -/

theorem cleanupCalls_mem (inst : BenchmarkInstance) (env : EnvBehavior) :
    EnvCall.cleanupScript ∈ cleanupCalls inst env ↔
      (truthy inst.setup_script = true ∧ env.cleanupShExists = true) := by
  unfold cleanupCalls
  cases h1 : truthy inst.setup_script <;> cases h2 : env.cleanupShExists <;> simp [h1, h2]

theorem tail_cleanup (inst : BenchmarkInstance) (cfg : EvalConfig) (env : EnvBehavior)
    (pre : List StageResult) (log : List EnvCall)
    (hlog : EnvCall.cleanupScript ∉ log) :
    (EnvCall.cleanupScript ∈ (pipelineTail inst cfg env pre log).2) ↔
      (truthy inst.setup_script = true ∧ env.cleanupShExists = true) := by
  unfold pipelineTail
  repeat' split
  all_goals simp [List.mem_append, hlog, cleanupCalls_mem]

theorem fromPlan_cleanup (inst : BenchmarkInstance) (cfg : EvalConfig) (env : EnvBehavior)
    (pre : List StageResult) (log : List EnvCall)
    (hlog : EnvCall.cleanupScript ∉ log) :
    (EnvCall.cleanupScript ∈ (pipelineFromPlan inst cfg env pre log).2) ↔
      (env.planOutcome.status = StageStatus.PASSED ∧ truthy inst.setup_script = true ∧
        env.cleanupShExists = true) := by
  unfold pipelineFromPlan
  split
  next h =>
    rw [tail_cleanup inst cfg env _ _ (by simp [List.mem_append, hlog])]
    rw [mkStage_status] at h
    simp [h]
  next h =>
    rw [mkStage_status] at h
    simp [List.mem_append, hlog, h]

theorem fromValidate_cleanup (inst : BenchmarkInstance) (cfg : EvalConfig) (env : EnvBehavior)
    (pre : List StageResult) (log : List EnvCall)
    (hlog : EnvCall.cleanupScript ∉ log) :
    (EnvCall.cleanupScript ∈ (pipelineFromValidate inst cfg env pre log).2) ↔
      (env.validateOutcome.status = StageStatus.PASSED ∧
        env.planOutcome.status = StageStatus.PASSED ∧ truthy inst.setup_script = true ∧
        env.cleanupShExists = true) := by
  unfold pipelineFromValidate
  split
  next h =>
    rw [fromPlan_cleanup inst cfg env _ _ (by simp [List.mem_append, hlog])]
    rw [mkStage_status] at h
    simp [h]
  next h =>
    rw [mkStage_status] at h
    simp [List.mem_append, hlog, h]

theorem fromInit_cleanup (inst : BenchmarkInstance) (cfg : EvalConfig) (env : EnvBehavior)
    (pre : List StageResult) (log : List EnvCall)
    (hlog : EnvCall.cleanupScript ∉ log) :
    (EnvCall.cleanupScript ∈ (pipelineFromInit inst cfg env pre log).2) ↔
      (env.initOutcome.status = StageStatus.PASSED ∧
        env.validateOutcome.status = StageStatus.PASSED ∧
        env.planOutcome.status = StageStatus.PASSED ∧ truthy inst.setup_script = true ∧
        env.cleanupShExists = true) := by
  unfold pipelineFromInit
  split
  next h =>
    rw [fromValidate_cleanup inst cfg env _ _ (by simp [List.mem_append, hlog])]
    rw [mkStage_status] at h
    simp [h]
  next h =>
    rw [mkStage_status] at h
    simp [List.mem_append, hlog, h]

theorem cleanup_mem_iff (inst : BenchmarkInstance) (cfg : EvalConfig) (env : EnvBehavior) :
    (EnvCall.cleanupScript ∈ (pipelineStages inst cfg env).2) ↔
      (planSucceededB inst env = true ∧ truthy inst.setup_script = true ∧
        env.cleanupShExists = true) := by
  unfold pipelineStages
  split
  next hts =>
    split
    next h =>
      rw [fromInit_cleanup inst cfg env _ _ (by decide)]
      rw [mkStage_status] at h
      simp only [planSucceededB, Bool.and_eq_true, Bool.or_eq_true, Bool.not_eq_true',
        decide_eq_true_eq, hts, h]
      tauto
    next h =>
      rw [mkStage_status] at h
      constructor
      · intro hc
        simp at hc
      · rintro ⟨hps, hts2, _⟩
        exfalso
        simp only [planSucceededB, Bool.and_eq_true, Bool.or_eq_true, Bool.not_eq_true',
          decide_eq_true_eq] at hps
        rcases hps.1.1.1 with hf | hp
        · rw [hts2] at hf
          cases hf
        · exact h hp
  next hts =>
    rw [fromInit_cleanup inst cfg env _ _ (by decide)]
    have hts' : truthy inst.setup_script = false := by
      simpa using hts
    simp [hts']

theorem tail_destroy (inst : BenchmarkInstance) (cfg : EvalConfig) (env : EnvBehavior)
    (pre : List StageResult) (log : List EnvCall)
    (ha : cfg.run_apply = true) (hd : cfg.run_destroy = true) :
    EnvCall.destroy ∈ (pipelineTail inst cfg env pre log).2 := by
  unfold pipelineTail
  rw [if_pos ha]
  repeat' split
  all_goals simp_all [List.mem_append]

theorem fromPlan_destroy (inst : BenchmarkInstance) (cfg : EvalConfig) (env : EnvBehavior)
    (pre : List StageResult) (log : List EnvCall)
    (hp : env.planOutcome.status = StageStatus.PASSED)
    (ha : cfg.run_apply = true) (hd : cfg.run_destroy = true) :
    EnvCall.destroy ∈ (pipelineFromPlan inst cfg env pre log).2 := by
  unfold pipelineFromPlan
  rw [if_pos (by rw [mkStage_status]; exact hp)]
  exact tail_destroy inst cfg env _ _ ha hd

theorem fromValidate_destroy (inst : BenchmarkInstance) (cfg : EvalConfig) (env : EnvBehavior)
    (pre : List StageResult) (log : List EnvCall)
    (hv : env.validateOutcome.status = StageStatus.PASSED)
    (hp : env.planOutcome.status = StageStatus.PASSED)
    (ha : cfg.run_apply = true) (hd : cfg.run_destroy = true) :
    EnvCall.destroy ∈ (pipelineFromValidate inst cfg env pre log).2 := by
  unfold pipelineFromValidate
  rw [if_pos (by rw [mkStage_status]; exact hv)]
  exact fromPlan_destroy inst cfg env _ _ hp ha hd

theorem fromInit_destroy (inst : BenchmarkInstance) (cfg : EvalConfig) (env : EnvBehavior)
    (pre : List StageResult) (log : List EnvCall)
    (hi : env.initOutcome.status = StageStatus.PASSED)
    (hv : env.validateOutcome.status = StageStatus.PASSED)
    (hp : env.planOutcome.status = StageStatus.PASSED)
    (ha : cfg.run_apply = true) (hd : cfg.run_destroy = true) :
    EnvCall.destroy ∈ (pipelineFromInit inst cfg env pre log).2 := by
  unfold pipelineFromInit
  rw [if_pos (by rw [mkStage_status]; exact hi)]
  exact fromValidate_destroy inst cfg env _ _ hv hp ha hd

theorem destroy_mem (inst : BenchmarkInstance) (cfg : EvalConfig) (env : EnvBehavior)
    (h : planSucceededB inst env = true) (ha : cfg.run_apply = true)
    (hd : cfg.run_destroy = true) :
    EnvCall.destroy ∈ (pipelineStages inst cfg env).2 := by
  simp only [planSucceededB, Bool.and_eq_true, Bool.or_eq_true, Bool.not_eq_true',
    decide_eq_true_eq] at h
  obtain ⟨⟨⟨hsetup, hinit⟩, hval⟩, hplan⟩ := h
  unfold pipelineStages
  by_cases hts : truthy inst.setup_script = true
  · rw [if_pos hts]
    have hsp : env.setupOutcome.status = StageStatus.PASSED := by
      rcases hsetup with hf | hp
      · rw [hts] at hf
        cases hf
      · exact hp
    rw [if_pos (by rw [mkStage_status]; exact hsp)]
    exact fromInit_destroy inst cfg env _ _ hinit hval hplan ha hd
  · rw [if_neg hts]
    exact fromInit_destroy inst cfg env _ _ hinit hval hplan ha hd

/-! ## Recorded-stage-name machinery for the pipeline -/

theorem names_append (l1 l2 : List StageResult)
    (h1 : ∀ s ∈ l1, s.stage ∈ stageOrderList) (h2 : ∀ s ∈ l2, s.stage ∈ stageOrderList) :
    ∀ s ∈ l1 ++ l2, s.stage ∈ stageOrderList := by
  intro s hs
  rcases List.mem_append.mp hs with h | h
  · exact h1 s h
  · exact h2 s h

theorem names_single (x : StageResult) (hx : x.stage ∈ stageOrderList) :
    ∀ s ∈ [x], s.stage ∈ stageOrderList := by
  intro s hs
  rw [List.mem_singleton] at hs
  subst hs
  exact hx

theorem names_skips (names : List String) (h : ∀ n ∈ names, n ∈ stageOrderList) :
    ∀ s ∈ skipRemaining names, s.stage ∈ stageOrderList := by
  intro s hs
  obtain ⟨n, hn, rfl⟩ := List.mem_map.mp hs
  rw [skipResult_stage]
  exact h n hn

theorem tail_names (inst : BenchmarkInstance) (cfg : EvalConfig) (env : EnvBehavior)
    (pre : List StageResult) (log : List EnvCall)
    (hpre : ∀ s ∈ pre, s.stage ∈ stageOrderList) :
    ∀ s ∈ (pipelineTail inst cfg env pre log).1, s.stage ∈ stageOrderList := by
  unfold pipelineTail
  split
  · split
    · split
      · intro s hs
        rcases List.mem_append.mp hs with h | h
        · exact hpre s h
        · rcases List.mem_cons.mp h with rfl | h
          · rw [mkStage_stage]
            decide
          · rcases List.mem_cons.mp h with rfl | h
            · rw [mkStage_stage]
              decide
            · cases h
      · exact names_append _ _ hpre (names_single _ (by rw [mkStage_stage]; decide))
    · exact names_append _ _
        (names_append _ _ hpre (names_single _ (by rw [mkStage_stage]; decide)))
        (names_skips _ (by decide))
  · exact hpre

theorem fromPlan_names (inst : BenchmarkInstance) (cfg : EvalConfig) (env : EnvBehavior)
    (pre : List StageResult) (log : List EnvCall)
    (hpre : ∀ s ∈ pre, s.stage ∈ stageOrderList) :
    ∀ s ∈ (pipelineFromPlan inst cfg env pre log).1, s.stage ∈ stageOrderList := by
  unfold pipelineFromPlan
  split
  · apply tail_names
    refine names_append _ _ hpre (names_single _ ?_)
    show ("plan" : String) ∈ stageOrderList
    decide
  · exact names_append _ _
      (names_append _ _ hpre (names_single _ (by rw [mkStage_stage]; decide)))
      (names_skips _ (by decide))

theorem fromValidate_names (inst : BenchmarkInstance) (cfg : EvalConfig) (env : EnvBehavior)
    (pre : List StageResult) (log : List EnvCall)
    (hpre : ∀ s ∈ pre, s.stage ∈ stageOrderList) :
    ∀ s ∈ (pipelineFromValidate inst cfg env pre log).1, s.stage ∈ stageOrderList := by
  unfold pipelineFromValidate
  split
  · exact fromPlan_names inst cfg env _ _
      (names_append _ _ hpre (names_single _ (by rw [mkStage_stage]; decide)))
  · exact names_append _ _
      (names_append _ _ hpre (names_single _ (by rw [mkStage_stage]; decide)))
      (names_skips _ (by decide))

theorem fromInit_names (inst : BenchmarkInstance) (cfg : EvalConfig) (env : EnvBehavior)
    (pre : List StageResult) (log : List EnvCall)
    (hpre : ∀ s ∈ pre, s.stage ∈ stageOrderList) :
    ∀ s ∈ (pipelineFromInit inst cfg env pre log).1, s.stage ∈ stageOrderList := by
  unfold pipelineFromInit
  split
  · exact fromValidate_names inst cfg env _ _
      (names_append _ _ hpre (names_single _ (by rw [mkStage_stage]; decide)))
  · exact names_append _ _
      (names_append _ _ hpre (names_single _ (by rw [mkStage_stage]; decide)))
      (names_skips _ (by decide))

theorem pipeline_names (inst : BenchmarkInstance) (cfg : EvalConfig) (env : EnvBehavior) :
    ∀ s ∈ (pipelineStages inst cfg env).1, s.stage ∈ stageOrderList := by
  unfold pipelineStages
  split
  · split
    · exact fromInit_names inst cfg env _ _
        (names_single _ (by rw [mkStage_stage]; decide))
    · intro s hs
      rcases List.mem_cons.mp hs with rfl | h
      · rw [mkStage_stage]
        decide
      · exact names_skips _ (by decide) s h
  · exact fromInit_names inst cfg env _ _ (by simp)

/-- C4 counterexample: an instance with a setup script whose setup passes and
whose `terraform init` fails — the pipeline returns right after init without
ever invoking the cleanup script, although `cleanup.sh` exists, refuting
"always attempts the cleanup script before returning". -/
theorem c4_counterexample :
    (evaluateInstance sampleInstSetup [] cfgDefault envInitFails).2 =
        [EnvCall.setupScript, EnvCall.init] ∧
    EnvCall.cleanupScript ∉ (evaluateInstance sampleInstSetup [] cfgDefault envInitFails).2 ∧
    truthy sampleInstSetup.setup_script = true ∧
    envInitFails.cleanupShExists = true :=
  ⟨by decide, by decide, rfl, rfl⟩

/-- C4 (amended): for an instance with a (truthy) setup script and an existing
`cleanup.sh`, the cleanup script is invoked exactly when the pipeline gets past
a successful plan (including a subsequently failed apply); on the early
returns from a setup, init, validate or plan failure cleanup is not
attempted. -/
theorem c4_cleanup_iff (inst : BenchmarkInstance) (files : List (String × String))
    (cfg : EvalConfig) (env : EnvBehavior) :
    (EnvCall.cleanupScript ∈ (evaluateInstance inst files cfg env).2) ↔
      (planSucceededB inst env = true ∧ truthy inst.setup_script = true ∧
        env.cleanupShExists = true) := by
  rw [evaluateInstance_log]
  exact cleanup_mem_iff inst cfg env

/-- C10: the recorded stage list never contains a `destroy` or
`cleanup_script` entry (so neither can influence the total score or the
artifact's stage list), although the pipeline does invoke destroy (when apply
ran with `run_destroy`) and the cleanup script (when applicable per the code)
— their results are discarded, not appended. -/
theorem c10_no_destroy_cleanup_in_stages :
    (∀ (inst : BenchmarkInstance) (files : List (String × String)) (cfg : EvalConfig)
        (env : EnvBehavior), ∀ s ∈ ((evaluateInstance inst files cfg env).1).stages,
        s.stage ≠ "destroy" ∧ s.stage ≠ "cleanup_script") ∧
    (∀ (inst : BenchmarkInstance) (files : List (String × String)) (cfg : EvalConfig)
        (env : EnvBehavior), planSucceededB inst env = true → cfg.run_apply = true →
        cfg.run_destroy = true →
        EnvCall.destroy ∈ (evaluateInstance inst files cfg env).2) ∧
    (∀ (inst : BenchmarkInstance) (files : List (String × String)) (cfg : EvalConfig)
        (env : EnvBehavior), planSucceededB inst env = true →
        truthy inst.setup_script = true → env.cleanupShExists = true →
        EnvCall.cleanupScript ∈ (evaluateInstance inst files cfg env).2) := by
  refine ⟨?_, ?_, ?_⟩
  · intro inst files cfg env s hs
    rw [evaluateInstance_stages] at hs
    have h := pipeline_names inst cfg env s hs
    constructor <;> intro he <;> rw [he] at h <;> exact absurd h (by decide)
  · intro inst files cfg env h ha hd
    rw [evaluateInstance_log]
    exact destroy_mem inst cfg env h ha hd
  · intro inst files cfg env h ht hc
    rw [evaluateInstance_log]
    exact (cleanup_mem_iff inst cfg env).mpr ⟨h, ht, hc⟩

/-- C10 witness: at a concrete full run with apply and destroy enabled, the
recorded stages exclude destroy/cleanup while both calls appear in the log. -/
theorem c10_no_destroy_cleanup_in_stages_witness :
    ((mkStage "init" passedOutcome).stage ≠ "destroy" ∧
      (mkStage "init" passedOutcome).stage ≠ "cleanup_script") ∧
    EnvCall.destroy ∈ (evaluateInstance sampleInstPlain [] cfgApply envAllPass).2 ∧
    EnvCall.cleanupScript ∈ (evaluateInstance sampleInstSetup [] cfgApply envAllPass).2 := by
  refine ⟨?_, ?_, ?_⟩
  · exact c10_no_destroy_cleanup_in_stages.1 sampleInstPlain [] cfgApply envAllPass
      (mkStage "init" passedOutcome) (by decide)
  · exact c10_no_destroy_cleanup_in_stages.2.1 sampleInstPlain [] cfgApply envAllPass
      (by decide) rfl rfl
  · exact c10_no_destroy_cleanup_in_stages.2.2 sampleInstSetup [] cfgApply envAllPass
      (by decide) (by decide) rfl

end TerraformLLM
